import Mathlib

/-!
# Verification of the rpmemd session controller and the client ssh transport

Shallow embedding of the relevant parts of `src/tools/rpmemd/rpmemd.c` and
`src/librpmem/rpmem_ssh.c`.  Machine integers (`size_t`, `int`) are modelled
as `Nat`/`Int`, with explicit `% 2^64` where the source relies on unsigned
wrap-around.  The outcomes of external calls (pool DB, fabric, out-of-band
transport) are given to each handler as an explicit environment record, and
the handler's observable effects (calls made, responses emitted, flags set,
return value) are collected in a result record, following the C control flow
including the `goto`-ladder cleanup order.
-/

namespace Rpmem

/-- Linux errno values used by the sources. -/
def ENOENT : Nat := 2
def EACCES : Nat := 13
def EEXIST : Nat := 17
def EAGAIN : Nat := 11
/-- On Linux `EWOULDBLOCK` is the same value as `EAGAIN`. -/
def EWOULDBLOCK : Nat := 11
def EPROTO : Nat := 71

/-- The protocol status enum (`enum rpmem_err` of the protocol header; the
numeric values are not used by any of the claims, only the distinctions). -/
inductive RpmemStatus
  | success
  | errExists
  | errNoAccess
  | errNoExist
  | errBusy
  | errBadSize
  | errFatal
  | errFatalConn
deriving DecidableEq, Repr

/-- `rpmemd_db_get_status` (rpmemd.c): convert an errno from a pool-DB
operation to a protocol status.  The C `switch` lists `EEXIST`, `EACCES`,
`ENOENT` and `EWOULDBLOCK`; every other value falls to the default. -/
def rpmemd_db_get_status (err : Nat) : RpmemStatus :=
  if err = EEXIST then .errExists
  else if err = EACCES then .errNoAccess
  else if err = ENOENT then .errNoExist
  else if err = EWOULDBLOCK then .errBusy
  else .errFatal

/-- Modulus of 64-bit unsigned (`size_t`) arithmetic. -/
def U64MOD : Nat := 2 ^ 64

/-- Modelled from the spec: `POOL_HDR_SIZE` comes from `pool_hdr.h`, which is
not part of the sources; the spec's scenario 1 fixes the header at 4 KiB. -/
def POOL_HDR_SIZE : Nat := 4096

/-- 64-bit wrapping subtraction `a - b` as computed on `size_t` operands,
for `a < 2^64`. -/
def sub64 (a b : Nat) : Nat :=
  (a + (U64MOD - b % U64MOD)) % U64MOD

/-- `rpmemd_check_pool` (rpmemd.c): the size check
`if (rpmemd->pool->pool_size - POOL_HDR_SIZE < req->pool_size)` performed on
`size_t` operands.  `none` means the check passed; `some s` means it failed
and set `*status = s`. -/
def rpmemd_check_pool (pool_size req_size : Nat) : Option RpmemStatus :=
  if sub64 pool_size POOL_HDR_SIZE < req_size then some .errBadSize else none

/-- Modelled from the spec: `rpmemd_db_pool_create` creates the backing file
and `rpmemd_db_pool_remove` unlinks it (the pool DB sources are not in the
sample).  A fresh descriptor's backing file exists after a handler ran iff
the file was created (or already existed) and was not removed. -/
def backing_file_exists (created_or_existed removed : Bool) : Bool :=
  created_or_existed && !removed

/-- Outcomes of the external calls made by `rpmemd_req_create`, plus the
relevant request/pool data.  `db_create = some e` means
`rpmemd_db_pool_create` returned `NULL` with `errno = e`; `fip_init = some s`
means `rpmemd_common_fip_init` failed with status `s`. -/
structure CreateEnv where
  pool_open : Bool
  db_create : Option Nat
  created_pool_size : Nat
  req_size : Nat
  fip_init : Option RpmemStatus
  send_resp_ok : Bool
  accept_ok : Bool
  process_start_ok : Bool
  send_err_resp_ok : Bool
deriving DecidableEq, Repr

/-- Observable effects of one run of `rpmemd_req_create`. -/
structure CreateResult where
  /-- statuses passed to `rpmemd_obc_create_resp`, in call order -/
  resp_attempts : List RpmemStatus
  /-- statuses of the response sends that returned success -/
  resp_sent : List RpmemStatus
  db_create_called : Bool
  pool_created : Bool
  pool_closed : Bool
  pool_removed : Bool
  fip_init_called : Bool
  fip_closed : Bool
  fip_finied : Bool
  closing : Bool
  /-- the handler returned 0 -/
  ret_ok : Bool
deriving DecidableEq, Repr

/-- `rpmemd_req_create` (rpmemd.c).  Each branch mirrors one exit path of the
C function, with the `goto` ladder
`err_process_start → fip_close; err_accept → err_send = 0; err_create_resp →
fip_fini; err_fip_init/err_pool_check → db_pool_close; db_pool_remove;
err_pool_create/err_pool_opened → if (err_send) resp; closing = 1` unfolded
per entry point. -/
def rpmemd_req_create (e : CreateEnv) : CreateResult :=
  if e.pool_open then
    -- "pool already opened": status = FATAL, goto err_pool_opened
    { resp_attempts := [.errFatal]
      resp_sent := if e.send_err_resp_ok then [.errFatal] else []
      db_create_called := false, pool_created := false
      pool_closed := false, pool_removed := false
      fip_init_called := false, fip_closed := false, fip_finied := false
      closing := true, ret_ok := e.send_err_resp_ok }
  else
    match e.db_create with
    | some err =>
      -- create failed: status = rpmemd_db_get_status(errno), goto err_pool_create
      let st := rpmemd_db_get_status err
      { resp_attempts := [st]
        resp_sent := if e.send_err_resp_ok then [st] else []
        db_create_called := true, pool_created := false
        pool_closed := false, pool_removed := false
        fip_init_called := false, fip_closed := false, fip_finied := false
        closing := true, ret_ok := e.send_err_resp_ok }
    | none =>
      match rpmemd_check_pool e.created_pool_size e.req_size with
      | some st =>
        -- size check failed: goto err_pool_check (close + remove)
        { resp_attempts := [st]
          resp_sent := if e.send_err_resp_ok then [st] else []
          db_create_called := true, pool_created := true
          pool_closed := true, pool_removed := true
          fip_init_called := false, fip_closed := false, fip_finied := false
          closing := true, ret_ok := e.send_err_resp_ok }
      | none =>
        match e.fip_init with
        | some st =>
          -- fip init failed: goto err_fip_init (close + remove)
          { resp_attempts := [st]
            resp_sent := if e.send_err_resp_ok then [st] else []
            db_create_called := true, pool_created := true
            pool_closed := true, pool_removed := true
            fip_init_called := true, fip_closed := false, fip_finied := false
            closing := true, ret_ok := e.send_err_resp_ok }
        | none =>
          if !e.send_resp_ok then
            -- send failed: err_send = 0, goto err_create_resp
            -- (fip_fini; close + remove; no second send)
            { resp_attempts := [.success], resp_sent := []
              db_create_called := true, pool_created := true
              pool_closed := true, pool_removed := true
              fip_init_called := true, fip_closed := false, fip_finied := true
              closing := true, ret_ok := false }
          else if !e.accept_ok then
            -- accept failed: goto err_accept
            -- (err_send = 0; fip_fini; close + remove)
            { resp_attempts := [.success], resp_sent := [.success]
              db_create_called := true, pool_created := true
              pool_closed := true, pool_removed := true
              fip_init_called := true, fip_closed := false, fip_finied := true
              closing := true, ret_ok := false }
          else if !e.process_start_ok then
            -- process start failed: goto err_process_start
            -- (fip_close; err_send = 0; fip_fini; close + remove)
            { resp_attempts := [.success], resp_sent := [.success]
              db_create_called := true, pool_created := true
              pool_closed := true, pool_removed := true
              fip_init_called := true, fip_closed := true, fip_finied := true
              closing := true, ret_ok := false }
          else
            -- success: return 0 (closing flag untouched)
            { resp_attempts := [.success], resp_sent := [.success]
              db_create_called := true, pool_created := true
              pool_closed := false, pool_removed := false
              fip_init_called := true, fip_closed := false, fip_finied := false
              closing := false, ret_ok := true }

/-- Outcomes of the external calls made by `rpmemd_req_open`. -/
structure OpenEnv where
  pool_open : Bool
  db_open : Option Nat
  opened_pool_size : Nat
  req_size : Nat
  fip_init : Option RpmemStatus
  send_resp_ok : Bool
  accept_ok : Bool
  process_start_ok : Bool
  send_err_resp_ok : Bool
deriving DecidableEq, Repr

/-- Observable effects of one run of `rpmemd_req_open`. -/
structure OpenResult where
  resp_attempts : List RpmemStatus
  resp_sent : List RpmemStatus
  db_open_called : Bool
  pool_opened : Bool
  pool_closed : Bool
  pool_removed : Bool
  fip_init_called : Bool
  fip_closed : Bool
  fip_finied : Bool
  closing : Bool
  ret_ok : Bool
deriving DecidableEq, Repr

/-- `rpmemd_req_open` (rpmemd.c).  Same ladder as `rpmemd_req_create`, except
the DB call is `rpmemd_db_pool_open` and the cleanup at
`err_fip_init/err_pool_check` calls only `rpmemd_db_pool_close` — there is no
`rpmemd_db_pool_remove` anywhere in this handler. -/
def rpmemd_req_open (e : OpenEnv) : OpenResult :=
  if e.pool_open then
    { resp_attempts := [.errFatal]
      resp_sent := if e.send_err_resp_ok then [.errFatal] else []
      db_open_called := false, pool_opened := false
      pool_closed := false, pool_removed := false
      fip_init_called := false, fip_closed := false, fip_finied := false
      closing := true, ret_ok := e.send_err_resp_ok }
  else
    match e.db_open with
    | some err =>
      let st := rpmemd_db_get_status err
      { resp_attempts := [st]
        resp_sent := if e.send_err_resp_ok then [st] else []
        db_open_called := true, pool_opened := false
        pool_closed := false, pool_removed := false
        fip_init_called := false, fip_closed := false, fip_finied := false
        closing := true, ret_ok := e.send_err_resp_ok }
    | none =>
      match rpmemd_check_pool e.opened_pool_size e.req_size with
      | some st =>
        { resp_attempts := [st]
          resp_sent := if e.send_err_resp_ok then [st] else []
          db_open_called := true, pool_opened := true
          pool_closed := true, pool_removed := false
          fip_init_called := false, fip_closed := false, fip_finied := false
          closing := true, ret_ok := e.send_err_resp_ok }
      | none =>
        match e.fip_init with
        | some st =>
          { resp_attempts := [st]
            resp_sent := if e.send_err_resp_ok then [st] else []
            db_open_called := true, pool_opened := true
            pool_closed := true, pool_removed := false
            fip_init_called := true, fip_closed := false, fip_finied := false
            closing := true, ret_ok := e.send_err_resp_ok }
        | none =>
          if !e.send_resp_ok then
            { resp_attempts := [.success], resp_sent := []
              db_open_called := true, pool_opened := true
              pool_closed := true, pool_removed := false
              fip_init_called := true, fip_closed := false, fip_finied := true
              closing := true, ret_ok := false }
          else if !e.accept_ok then
            { resp_attempts := [.success], resp_sent := [.success]
              db_open_called := true, pool_opened := true
              pool_closed := true, pool_removed := false
              fip_init_called := true, fip_closed := false, fip_finied := true
              closing := true, ret_ok := false }
          else if !e.process_start_ok then
            { resp_attempts := [.success], resp_sent := [.success]
              db_open_called := true, pool_opened := true
              pool_closed := true, pool_removed := false
              fip_init_called := true, fip_closed := true, fip_finied := true
              closing := true, ret_ok := false }
          else
            { resp_attempts := [.success], resp_sent := [.success]
              db_open_called := true, pool_opened := true
              pool_closed := false, pool_removed := false
              fip_init_called := true, fip_closed := false, fip_finied := false
              closing := false, ret_ok := true }

/-- The status carried by a close response: the C variable is an `int` that
holds either a protocol enum value (0 or `RPMEM_ERR_FATAL`) or, when
`rpmemd_fip_process_stop` fails, a raw errno. -/
inductive CloseStatus
  | proto (s : RpmemStatus)
  | rawErrno (e : Nat)
deriving DecidableEq, Repr

/-- Outcomes of the external calls made by `rpmemd_req_close`. -/
structure CloseEnv where
  pool_open : Bool
  process_stop_err : Option Nat
  send_ok : Bool
deriving DecidableEq, Repr

/-- Observable effects of one run of `rpmemd_req_close`. -/
structure CloseResult where
  resp_attempts : List CloseStatus
  resp_sent : List CloseStatus
  db_close_called : Bool
  fip_stop_called : Bool
  fip_wait_called : Bool
  fip_closed : Bool
  fip_finied : Bool
  closing : Bool
  ret_ok : Bool
deriving DecidableEq, Repr

/-- `rpmemd_req_close` (rpmemd.c): sets `closing` unconditionally; with no
pool open it responds `RPMEM_ERR_FATAL` and returns the send result; else it
closes the pool, stops the fabric process (a failure turns the status into
the current errno), sends the response, waits for the fabric close only if
the send succeeded, then closes and finalizes the fabric. -/
def rpmemd_req_close (e : CloseEnv) : CloseResult :=
  if !e.pool_open then
    { resp_attempts := [.proto .errFatal]
      resp_sent := if e.send_ok then [.proto .errFatal] else []
      db_close_called := false, fip_stop_called := false
      fip_wait_called := false, fip_closed := false, fip_finied := false
      closing := true, ret_ok := e.send_ok }
  else
    let st : CloseStatus :=
      match e.process_stop_err with
      | some er => .rawErrno er
      | none => .proto .success
    { resp_attempts := [st]
      resp_sent := if e.send_ok then [st] else []
      db_close_called := true, fip_stop_called := true
      fip_wait_called := e.send_ok, fip_closed := true, fip_finied := true
      closing := true, ret_ok := e.send_ok }

/-! ## Client-side ssh transport (`src/librpmem/rpmem_ssh.c`) -/

/-- Linux `WIFEXITED(status)`: the low 7 bits of the wait status are zero. -/
def WIFEXITED (s : Nat) : Bool := s % 128 == 0

/-- Linux `WEXITSTATUS(status)`: bits 8..15 of the wait status. -/
def WEXITSTATUS (s : Nat) : Nat := (s / 256) % 256

/-- Linux `WTERMSIG(status)`: the low 7 bits of the wait status. -/
def WTERMSIG (s : Nat) : Nat := s % 128

/-- Linux `WIFSIGNALED(status)`: `((status & 0x7f) + 1) >> 1 > 0`, i.e. the
low 7 bits are neither 0 (exited) nor 0x7f (stopped). -/
def WIFSIGNALED (s : Nat) : Bool := (s % 128 != 0) && (s % 128 != 127)

/-- Observable outcome of `rpmem_ssh_close` after the child has been reaped
with wait status `ret`: the returned value plus what was logged. -/
structure SshCloseResult where
  retval : Nat
  logged_signal : Option Nat
  logged_exit : Option Nat
deriving DecidableEq, Repr

/-- `rpmem_ssh_close` (rpmem_ssh.c), as a function of the wait status `ret`
obtained from `rpmem_cmd_wait`:
`if (WIFEXITED(ret)) return 0;`
`if (WIFSIGNALED(ret)) { ERR("signal received -- %d", WTERMSIG(ret)); return ret; }`
`ERR("exit status -- %d", WEXITSTATUS(ret)); return ret;` -/
def rpmem_ssh_close (ret : Nat) : SshCloseResult :=
  if WIFEXITED ret then
    { retval := 0, logged_signal := none, logged_exit := none }
  else if WIFSIGNALED ret then
    { retval := ret, logged_signal := some (WTERMSIG ret), logged_exit := none }
  else
    { retval := ret, logged_signal := none, logged_exit := some (WEXITSTATUS ret) }

/-- Truncate a byte sequence at the first occurrence of `c` — the effect of
`strchr(error_str, c); if found *p = '\0'` on a NUL-terminated buffer. -/
def truncAtFirst (c : Char) : List Char → List Char
  | [] => []
  | x :: xs => if x = c then [] else x :: truncAtFirst c xs

/-- Result of `rpmem_ssh_strerror`.  The helper returns one of: the literal
"reading error string failed", a human-readable message for a stored errno
(`util_strerror`, external), the literal "unknown error", or the stderr text
after truncation. -/
inductive SshError
  | readFailed
  | errnoMessage (e : Nat)
  | unknownError
  | text (s : List Char)
deriving DecidableEq, Repr

/-- `rpmem_ssh_strerror` (rpmem_ssh.c) on a fresh (zeroed) static buffer,
assuming the bytes read contain no NUL.  `readRes = none` models
`read() < 0`; `some bytes` models a successful read of `bytes`.  On a
non-empty read the code truncates the buffer at the first `'\r'`
(`strchr(error_str, '\r')`) and at the first `'\n'`. -/
def rpmem_ssh_strerror (readRes : Option (List Char)) (err : Nat) : SshError :=
  match readRes with
  | none => .readFailed
  | some [] => if err ≠ 0 then .errnoMessage err else .unknownError
  | some (b :: bs) => .text (truncAtFirst '\n' (truncAtFirst '\r' (b :: bs)))

/-- Written from the spec's words, for comparison with `rpmem_ssh_strerror`:
"strip trailing CR and LF bytes" — remove the maximal run of `'\r'`/`'\n'`
characters at the end of the text. -/
def spec_stripTrailingCRLF (s : List Char) : List Char :=
  ((s.reverse).dropWhile (fun c => c = '\r' || c = '\n')).reverse

/-- Modelled from the spec: the return convention of `rpmem_xread`
(rpmem_common, not among the sources) as used throughout rpmem_ssh.c —
0 after the full buffer was read, 1 on peer-closed EOF (zero-byte read),
and a negative value on an I/O error with `errno` set. -/
inductive XreadResult
  | success
  | closed
  | ioError (ret : Int) (errno : Nat)
deriving DecidableEq, Repr

/-- Observable outcome of `rpmem_ssh_monitor`: the return value, the errno
the function itself stores (if any), and whether it logged the
"unexpected data received" error. -/
structure MonitorResult where
  retval : Int
  errno_set : Option Nat
  logged_unexpected : Bool
deriving DecidableEq, Repr

/-- `rpmem_ssh_monitor` (rpmem_ssh.c), as a function of the outcome of the
`MSG_PEEK` read: a full successful peek (`ret == 0`) logs
"unexpected data received", sets `errno = EPROTO` and returns -1; a negative
`ret` with `EAGAIN`/`EWOULDBLOCK` returns 1 (still connected), any other
negative `ret` is returned as is; `ret == 1` (peer closed) falls through to
`return 0` (disconnected). -/
def rpmem_ssh_monitor (x : XreadResult) : MonitorResult :=
  match x with
  | .success =>
    { retval := -1, errno_set := some EPROTO, logged_unexpected := true }
  | .ioError ret errno =>
    if errno = EAGAIN ∨ errno = EWOULDBLOCK then
      { retval := 1, errno_set := none, logged_unexpected := false }
    else
      { retval := ret, errno_set := none, logged_unexpected := false }
  | .closed =>
    { retval := 0, errno_set := none, logged_unexpected := false }

/-! ## Arithmetic helper lemmas -/

/-- When the subtrahend does not exceed the minuend, `sub64` is plain
subtraction. -/
theorem sub64_of_le (a b : Nat) (hb : b ≤ a) (ha : a < U64MOD)
    (hbu : b < U64MOD) : sub64 a b = a - b := by
  unfold sub64 U64MOD at *
  omega

/-- When the subtrahend exceeds the minuend, `sub64` wraps around. -/
theorem sub64_wrap (a b : Nat) (hab : a < b) (hbu : b < U64MOD) :
    sub64 a b = U64MOD - b + a := by
  unfold sub64 U64MOD at *
  omega

/-! ## Claim theorems -/

/-- C3: the controller maps pool-DB errno values to protocol status exactly
as: `EEXIST ↦ EXISTS`, `EACCES ↦ NOACCESS`, `ENOENT ↦ NOEXIST`,
`EWOULDBLOCK ↦ BUSY`, and every other errno to `FATAL`. -/
theorem db_status_mapping (err : Nat)
    (h : err ≠ EEXIST ∧ err ≠ EACCES ∧ err ≠ ENOENT ∧ err ≠ EWOULDBLOCK) :
    rpmemd_db_get_status EEXIST = .errExists ∧
    rpmemd_db_get_status EACCES = .errNoAccess ∧
    rpmemd_db_get_status ENOENT = .errNoExist ∧
    rpmemd_db_get_status EWOULDBLOCK = .errBusy ∧
    rpmemd_db_get_status err = .errFatal := by
  obtain ⟨h1, h2, h3, h4⟩ := h
  refine ⟨by decide, by decide, by decide, by decide, ?_⟩
  simp [rpmemd_db_get_status, h1, h2, h3, h4]

/-- Witness for C3 at the unlisted errno `EIO = 5`. -/
theorem db_status_mapping_witness :
    rpmemd_db_get_status EEXIST = .errExists ∧
    rpmemd_db_get_status EACCES = .errNoAccess ∧
    rpmemd_db_get_status ENOENT = .errNoExist ∧
    rpmemd_db_get_status EWOULDBLOCK = .errBusy ∧
    rpmemd_db_get_status 5 = .errFatal :=
  db_status_mapping 5 (by decide)

/-- C4: for a pool whose mapped size is at least `POOL_HDR_SIZE` (as every
pool produced by a real pool-set file is), the size check accepts the
request iff `requested_size ≤ pool_size − POOL_HDR_SIZE`; equality is
accepted, a requested size of 0 is accepted, and one byte more than the
boundary is rejected with status `BADSIZE`. -/
theorem check_pool_boundary (pool_size req_size : Nat)
    (hlo : POOL_HDR_SIZE ≤ pool_size) (hhi : pool_size < U64MOD) :
    (rpmemd_check_pool pool_size req_size = none ↔
      req_size ≤ pool_size - POOL_HDR_SIZE) ∧
    rpmemd_check_pool pool_size (pool_size - POOL_HDR_SIZE) = none ∧
    rpmemd_check_pool pool_size 0 = none ∧
    rpmemd_check_pool pool_size (pool_size - POOL_HDR_SIZE + 1) =
      some .errBadSize := by
  have hbu : POOL_HDR_SIZE < U64MOD := by norm_num [POOL_HDR_SIZE, U64MOD]
  have hsub := sub64_of_le pool_size POOL_HDR_SIZE hlo hhi hbu
  have key : ∀ r : Nat, rpmemd_check_pool pool_size r =
      if pool_size - POOL_HDR_SIZE < r then some RpmemStatus.errBadSize
      else none := by
    intro r
    unfold rpmemd_check_pool
    rw [hsub]
  refine ⟨?_, ?_, ?_, ?_⟩
  · rw [key]
    by_cases hc : pool_size - POOL_HDR_SIZE < req_size
    · rw [if_pos hc]
      constructor
      · intro h; exact absurd h (Option.some_ne_none _)
      · intro h; omega
    · rw [if_neg hc]
      constructor
      · intro _; omega
      · intro _; rfl
  · rw [key, if_neg (by omega)]
  · rw [key, if_neg (by omega)]
  · rw [key, if_pos (by omega)]

/-- Witness for C4 at `pool_size = 8192` (boundary `8192 − 4096 = 4096`). -/
theorem check_pool_boundary_witness :
    (rpmemd_check_pool 8192 4096 = none ↔ 4096 ≤ 8192 - POOL_HDR_SIZE) ∧
    rpmemd_check_pool 8192 (8192 - POOL_HDR_SIZE) = none ∧
    rpmemd_check_pool 8192 0 = none ∧
    rpmemd_check_pool 8192 (8192 - POOL_HDR_SIZE + 1) =
      some .errBadSize :=
  check_pool_boundary 8192 4096 (by norm_num [POOL_HDR_SIZE])
    (by norm_num [U64MOD])

/-- C10: when the mapped pool size is smaller than `POOL_HDR_SIZE`, the
`size_t` subtraction `pool_size - POOL_HDR_SIZE` wraps modulo `2^64`, so the
comparison is made against the huge value `2^64 − POOL_HDR_SIZE + pool_size`
and every requested size up to that bound — in particular sizes far larger
than the file — is accepted instead of being rejected with `BADSIZE`. -/
theorem check_pool_underflow_wrap (pool_size req_size : Nat)
    (hps : pool_size < POOL_HDR_SIZE)
    (hreq : req_size ≤ U64MOD - POOL_HDR_SIZE + pool_size) :
    sub64 pool_size POOL_HDR_SIZE = U64MOD - POOL_HDR_SIZE + pool_size ∧
    rpmemd_check_pool pool_size req_size = none := by
  have hbu : POOL_HDR_SIZE < U64MOD := by norm_num [POOL_HDR_SIZE, U64MOD]
  have hw := sub64_wrap pool_size POOL_HDR_SIZE hps hbu
  refine ⟨hw, ?_⟩
  unfold rpmemd_check_pool
  rw [hw, if_neg (by omega)]

/-- Witness for C10: an empty (0-byte) pool accepts a 2^63-byte request. -/
theorem check_pool_underflow_wrap_witness :
    sub64 0 POOL_HDR_SIZE = U64MOD - POOL_HDR_SIZE + 0 ∧
    rpmemd_check_pool 0 (2 ^ 63) = none :=
  check_pool_underflow_wrap 0 (2 ^ 63)
    (by norm_num [POOL_HDR_SIZE])
    (by norm_num [U64MOD, POOL_HDR_SIZE])

/-- C7: evaluation of `rpmem_ssh_close` at the failing inputs.  For a child
that exited normally with code 3 (wait status 768 = 3 · 256) the code
returns 0, not the exit code 3 the claim requires; for a child killed by
SIGSEGV with a core dump (wait status 139 = 11 + 128) the code returns the
raw wait status 139, not the logged signal number 11. -/
theorem ssh_close_divergence :
    (WIFEXITED 768 = true ∧ WEXITSTATUS 768 = 3 ∧
      (rpmem_ssh_close 768).retval = 0) ∧
    (WIFSIGNALED 139 = true ∧ WTERMSIG 139 = 11 ∧
      rpmem_ssh_close 139 =
        { retval := 139, logged_signal := some 11, logged_exit := none }) ∧
    (rpmem_ssh_close 0).retval = 0 := by
  decide

/-- C9: the monitor operation returns 1 (connected) when the peek would
block or finds nothing to read, 0 (disconnected) on the zero-byte EOF, and
on a successfully readable peek it logs the violation, sets
`errno = EPROTO` and returns a negative value. -/
theorem ssh_monitor_semantics (ret : Int) (errno : Nat)
    (he : errno = EAGAIN ∨ errno = EWOULDBLOCK) :
    rpmem_ssh_monitor (.ioError ret errno) =
      { retval := 1, errno_set := none, logged_unexpected := false } ∧
    rpmem_ssh_monitor .closed =
      { retval := 0, errno_set := none, logged_unexpected := false } ∧
    ((rpmem_ssh_monitor .success).retval < 0 ∧
      (rpmem_ssh_monitor .success).errno_set = some EPROTO ∧
      (rpmem_ssh_monitor .success).logged_unexpected = true) := by
  refine ⟨?_, by decide, by decide, by decide, by decide⟩
  have hstep : rpmem_ssh_monitor (.ioError ret errno) =
      if errno = EAGAIN ∨ errno = EWOULDBLOCK then
        { retval := 1, errno_set := none, logged_unexpected := false }
      else
        { retval := ret, errno_set := none, logged_unexpected := false } := rfl
  rw [hstep, if_pos he]

/-- Witness for C9 at a would-block peek (`ret = -1`, `errno = EAGAIN`). -/
theorem ssh_monitor_semantics_witness :
    rpmem_ssh_monitor (.ioError (-1) EAGAIN) =
      { retval := 1, errno_set := none, logged_unexpected := false } ∧
    rpmem_ssh_monitor .closed =
      { retval := 0, errno_set := none, logged_unexpected := false } ∧
    ((rpmem_ssh_monitor .success).retval < 0 ∧
      (rpmem_ssh_monitor .success).errno_set = some EPROTO ∧
      (rpmem_ssh_monitor .success).logged_unexpected = true) :=
  ssh_monitor_semantics (-1) EAGAIN (Or.inl rfl)

/-- Any failure of a later step of the create flow, after the pool was
created: a failed size check, a failed fabric init, a failed response send,
a failed fabric accept, or a failed process start. -/
def CreateLaterStepFails (e : CreateEnv) : Prop :=
  rpmemd_check_pool e.created_pool_size e.req_size ≠ none ∨
  e.fip_init ≠ none ∨ e.send_resp_ok = false ∨
  e.accept_ok = false ∨ e.process_start_ok = false

/-- Any failure of a later step of the open flow, after the pool was
opened. -/
def OpenLaterStepFails (e : OpenEnv) : Prop :=
  rpmemd_check_pool e.opened_pool_size e.req_size ≠ none ∨
  e.fip_init ≠ none ∨ e.send_resp_ok = false ∨
  e.accept_ok = false ∨ e.process_start_ok = false

/-- Shared case analysis: every error path of `rpmemd_req_create` that is
entered after the pool was created runs the cleanup ladder through
`rpmemd_db_pool_close` and `rpmemd_db_pool_remove` and sets the closing
flag. -/
theorem create_later_fail_fields (e : CreateEnv)
    (hpool : e.pool_open = false) (hdb : e.db_create = none)
    (hfail : CreateLaterStepFails e) :
    (rpmemd_req_create e).pool_created = true ∧
    (rpmemd_req_create e).pool_closed = true ∧
    (rpmemd_req_create e).pool_removed = true ∧
    (rpmemd_req_create e).closing = true := by
  cases hck : rpmemd_check_pool e.created_pool_size e.req_size with
  | some st => simp [rpmemd_req_create, hpool, hdb, hck]
  | none =>
    cases hfi : e.fip_init with
    | some st => simp [rpmemd_req_create, hpool, hdb, hck, hfi]
    | none =>
      cases hs : e.send_resp_ok with
      | false => simp [rpmemd_req_create, hpool, hdb, hck, hfi, hs]
      | true =>
        cases ha : e.accept_ok with
        | false => simp [rpmemd_req_create, hpool, hdb, hck, hfi, hs, ha]
        | true =>
          cases hp : e.process_start_ok with
          | false => simp [rpmemd_req_create, hpool, hdb, hck, hfi, hs, ha, hp]
          | true =>
            exfalso
            rcases hfail with h | h | h | h | h <;> simp_all

/-- Shared case analysis: every error path of `rpmemd_req_open` that is
entered after the pool was opened runs `rpmemd_db_pool_close` but never
`rpmemd_db_pool_remove`. -/
theorem open_later_fail_fields (e : OpenEnv)
    (hpool : e.pool_open = false) (hdb : e.db_open = none)
    (hfail : OpenLaterStepFails e) :
    (rpmemd_req_open e).pool_opened = true ∧
    (rpmemd_req_open e).pool_closed = true ∧
    (rpmemd_req_open e).pool_removed = false ∧
    (rpmemd_req_open e).closing = true := by
  cases hck : rpmemd_check_pool e.opened_pool_size e.req_size with
  | some st => simp [rpmemd_req_open, hpool, hdb, hck]
  | none =>
    cases hfi : e.fip_init with
    | some st => simp [rpmemd_req_open, hpool, hdb, hck, hfi]
    | none =>
      cases hs : e.send_resp_ok with
      | false => simp [rpmemd_req_open, hpool, hdb, hck, hfi, hs]
      | true =>
        cases ha : e.accept_ok with
        | false => simp [rpmemd_req_open, hpool, hdb, hck, hfi, hs, ha]
        | true =>
          cases hp : e.process_start_ok with
          | false => simp [rpmemd_req_open, hpool, hdb, hck, hfi, hs, ha, hp]
          | true =>
            exfalso
            rcases hfail with h | h | h | h | h <;> simp_all

/-- Environment exhibiting C1's scenario: the create flow succeeds through
the response send, then fabric accept fails. -/
def acceptFailEnv : CreateEnv :=
  { pool_open := false, db_create := none, created_pool_size := 8192,
    req_size := 4096, fip_init := none, send_resp_ok := true,
    accept_ok := false, process_start_ok := true, send_err_resp_ok := true }

/-- C1 counterexample: when fabric accept fails after the create-response
was successfully sent, the handler does NOT keep the pool — the cleanup
ladder removes it, so the backing file no longer exists. -/
theorem create_accept_fail_keeps_pool_counterexample :
    (rpmemd_req_create acceptFailEnv).resp_sent = [RpmemStatus.success] ∧
    (rpmemd_req_create acceptFailEnv).closing = true ∧
    (rpmemd_req_create acceptFailEnv).pool_removed = true ∧
    backing_file_exists (rpmemd_req_create acceptFailEnv).pool_created
      (rpmemd_req_create acceptFailEnv).pool_removed = false := by
  decide

/-- C1 (amended): if fabric accept or fabric process-start fails after the
create-response was successfully sent, the session moves to closing and the
pool is closed AND removed — the backing file created by this request no
longer exists afterward. -/
theorem create_accept_fail_removes_pool (e : CreateEnv)
    (hpool : e.pool_open = false) (hdb : e.db_create = none)
    (hck : rpmemd_check_pool e.created_pool_size e.req_size = none)
    (hfi : e.fip_init = none) (hs : e.send_resp_ok = true)
    (hfail : e.accept_ok = false ∨ e.process_start_ok = false) :
    (rpmemd_req_create e).resp_sent = [RpmemStatus.success] ∧
    (rpmemd_req_create e).closing = true ∧
    (rpmemd_req_create e).pool_closed = true ∧
    (rpmemd_req_create e).pool_removed = true ∧
    backing_file_exists (rpmemd_req_create e).pool_created
      (rpmemd_req_create e).pool_removed = false := by
  cases ha : e.accept_ok with
  | false => simp [rpmemd_req_create, hpool, hdb, hck, hfi, hs, ha,
      backing_file_exists]
  | true =>
    have hp : e.process_start_ok = false := by
      rcases hfail with h | h
      · rw [h] at ha; cases ha
      · exact h
    simp [rpmemd_req_create, hpool, hdb, hck, hfi, hs, ha, hp,
      backing_file_exists]

/-- Witness for amended C1 at `acceptFailEnv`. -/
theorem create_accept_fail_removes_pool_witness :
    (rpmemd_req_create acceptFailEnv).resp_sent = [RpmemStatus.success] ∧
    (rpmemd_req_create acceptFailEnv).closing = true ∧
    (rpmemd_req_create acceptFailEnv).pool_closed = true ∧
    (rpmemd_req_create acceptFailEnv).pool_removed = true ∧
    backing_file_exists (rpmemd_req_create acceptFailEnv).pool_created
      (rpmemd_req_create acceptFailEnv).pool_removed = false :=
  create_accept_fail_removes_pool acceptFailEnv rfl rfl (by decide) rfl rfl
    (Or.inl rfl)

/-- C2: for every create request in which the pool backing file is
successfully created but a later step fails (size check, fabric init,
response send, fabric accept, or process start), the pool is both closed
and removed, so the backing file does not exist afterward. -/
theorem create_fail_closes_and_removes (e : CreateEnv)
    (hpool : e.pool_open = false) (hdb : e.db_create = none)
    (hfail : CreateLaterStepFails e) :
    (rpmemd_req_create e).pool_created = true ∧
    (rpmemd_req_create e).pool_closed = true ∧
    (rpmemd_req_create e).pool_removed = true ∧
    backing_file_exists (rpmemd_req_create e).pool_created
      (rpmemd_req_create e).pool_removed = false := by
  obtain ⟨h1, h2, h3, _⟩ := create_later_fail_fields e hpool hdb hfail
  refine ⟨h1, h2, h3, ?_⟩
  rw [h1, h3]
  rfl

/-- Witness for C2: create succeeds, the response send fails. -/
theorem create_fail_closes_and_removes_witness :
    (rpmemd_req_create
      { pool_open := false, db_create := none, created_pool_size := 8192,
        req_size := 0, fip_init := none, send_resp_ok := false,
        accept_ok := true, process_start_ok := true,
        send_err_resp_ok := true }).pool_created = true ∧
    (rpmemd_req_create
      { pool_open := false, db_create := none, created_pool_size := 8192,
        req_size := 0, fip_init := none, send_resp_ok := false,
        accept_ok := true, process_start_ok := true,
        send_err_resp_ok := true }).pool_closed = true ∧
    (rpmemd_req_create
      { pool_open := false, db_create := none, created_pool_size := 8192,
        req_size := 0, fip_init := none, send_resp_ok := false,
        accept_ok := true, process_start_ok := true,
        send_err_resp_ok := true }).pool_removed = true ∧
    backing_file_exists
      (rpmemd_req_create
        { pool_open := false, db_create := none, created_pool_size := 8192,
          req_size := 0, fip_init := none, send_resp_ok := false,
          accept_ok := true, process_start_ok := true,
          send_err_resp_ok := true }).pool_created
      (rpmemd_req_create
        { pool_open := false, db_create := none, created_pool_size := 8192,
          req_size := 0, fip_init := none, send_resp_ok := false,
          accept_ok := true, process_start_ok := true,
          send_err_resp_ok := true }).pool_removed = false :=
  create_fail_closes_and_removes _ rfl rfl
    (Or.inr (Or.inr (Or.inl rfl)))

/-- C5: for every open request in which the pool is successfully opened but
a later step fails (size check, fabric init, response send, fabric accept,
or process start), the pool is closed but its backing file is NOT removed:
the file (which existed, since the open succeeded) still exists and is no
longer held open by the daemon. -/
theorem open_fail_closes_without_remove (e : OpenEnv)
    (hpool : e.pool_open = false) (hdb : e.db_open = none)
    (hfail : OpenLaterStepFails e) :
    (rpmemd_req_open e).pool_opened = true ∧
    (rpmemd_req_open e).pool_closed = true ∧
    (rpmemd_req_open e).pool_removed = false ∧
    backing_file_exists true (rpmemd_req_open e).pool_removed = true := by
  obtain ⟨h1, h2, h3, _⟩ := open_later_fail_fields e hpool hdb hfail
  refine ⟨h1, h2, h3, ?_⟩
  rw [h3]
  rfl

/-- Witness for C5: open succeeds, fabric accept fails. -/
theorem open_fail_closes_without_remove_witness :
    (rpmemd_req_open
      { pool_open := false, db_open := none, opened_pool_size := 8192,
        req_size := 4096, fip_init := none, send_resp_ok := true,
        accept_ok := false, process_start_ok := true,
        send_err_resp_ok := true }).pool_opened = true ∧
    (rpmemd_req_open
      { pool_open := false, db_open := none, opened_pool_size := 8192,
        req_size := 4096, fip_init := none, send_resp_ok := true,
        accept_ok := false, process_start_ok := true,
        send_err_resp_ok := true }).pool_closed = true ∧
    (rpmemd_req_open
      { pool_open := false, db_open := none, opened_pool_size := 8192,
        req_size := 4096, fip_init := none, send_resp_ok := true,
        accept_ok := false, process_start_ok := true,
        send_err_resp_ok := true }).pool_removed = false ∧
    backing_file_exists true
      (rpmemd_req_open
        { pool_open := false, db_open := none, opened_pool_size := 8192,
          req_size := 4096, fip_init := none, send_resp_ok := true,
          accept_ok := false, process_start_ok := true,
          send_err_resp_ok := true }).pool_removed = true :=
  open_fail_closes_without_remove _ rfl rfl
    (Or.inr (Or.inr (Or.inr (Or.inl rfl))))

/-- C6: the single-pool invariant is guard-enforced.  A create or open
request arriving while a pool is already open is answered with a single
FATAL response without calling the pool DB or the fabric; a close request
arriving with no pool open is answered with a FATAL response, touches
neither the pool DB nor the fabric, and returns the send result cleanly. -/
theorem single_pool_guards (ec : CreateEnv) (eo : OpenEnv) (ex : CloseEnv)
    (hc : ec.pool_open = true) (ho : eo.pool_open = true)
    (hx : ex.pool_open = false) :
    ((rpmemd_req_create ec).resp_attempts = [.errFatal] ∧
     (rpmemd_req_create ec).db_create_called = false ∧
     (rpmemd_req_create ec).fip_init_called = false) ∧
    ((rpmemd_req_open eo).resp_attempts = [.errFatal] ∧
     (rpmemd_req_open eo).db_open_called = false ∧
     (rpmemd_req_open eo).fip_init_called = false) ∧
    ((rpmemd_req_close ex).resp_attempts = [.proto .errFatal] ∧
     (rpmemd_req_close ex).db_close_called = false ∧
     (rpmemd_req_close ex).fip_stop_called = false ∧
     (rpmemd_req_close ex).ret_ok = ex.send_ok) := by
  refine ⟨?_, ?_, ?_⟩
  · simp [rpmemd_req_create, hc]
  · simp [rpmemd_req_open, ho]
  · simp [rpmemd_req_close, hx]

/-- Witness for C6 at concrete environments for all three guards. -/
theorem single_pool_guards_witness :
    ((rpmemd_req_create
      { pool_open := true, db_create := none, created_pool_size := 0,
        req_size := 0, fip_init := none, send_resp_ok := true,
        accept_ok := true, process_start_ok := true,
        send_err_resp_ok := true }).resp_attempts = [.errFatal] ∧
     (rpmemd_req_create
      { pool_open := true, db_create := none, created_pool_size := 0,
        req_size := 0, fip_init := none, send_resp_ok := true,
        accept_ok := true, process_start_ok := true,
        send_err_resp_ok := true }).db_create_called = false ∧
     (rpmemd_req_create
      { pool_open := true, db_create := none, created_pool_size := 0,
        req_size := 0, fip_init := none, send_resp_ok := true,
        accept_ok := true, process_start_ok := true,
        send_err_resp_ok := true }).fip_init_called = false) ∧
    ((rpmemd_req_open
      { pool_open := true, db_open := none, opened_pool_size := 0,
        req_size := 0, fip_init := none, send_resp_ok := true,
        accept_ok := true, process_start_ok := true,
        send_err_resp_ok := true }).resp_attempts = [.errFatal] ∧
     (rpmemd_req_open
      { pool_open := true, db_open := none, opened_pool_size := 0,
        req_size := 0, fip_init := none, send_resp_ok := true,
        accept_ok := true, process_start_ok := true,
        send_err_resp_ok := true }).db_open_called = false ∧
     (rpmemd_req_open
      { pool_open := true, db_open := none, opened_pool_size := 0,
        req_size := 0, fip_init := none, send_resp_ok := true,
        accept_ok := true, process_start_ok := true,
        send_err_resp_ok := true }).fip_init_called = false) ∧
    ((rpmemd_req_close
      { pool_open := false, process_stop_err := none,
        send_ok := true }).resp_attempts = [.proto .errFatal] ∧
     (rpmemd_req_close
      { pool_open := false, process_stop_err := none,
        send_ok := true }).db_close_called = false ∧
     (rpmemd_req_close
      { pool_open := false, process_stop_err := none,
        send_ok := true }).fip_stop_called = false ∧
     (rpmemd_req_close
      { pool_open := false, process_stop_err := none,
        send_ok := true }).ret_ok =
       ({ pool_open := false, process_stop_err := none,
          send_ok := true } : CloseEnv).send_ok) :=
  single_pool_guards _ _ _ rfl rfl rfl

/-! ## Lemmas about truncation and trailing-CR/LF stripping -/

/-- Truncation passes over a prefix that does not contain the character. -/
theorem truncAtFirst_append_of_not_mem (c : Char) (l r : List Char)
    (h : c ∉ l) : truncAtFirst c (l ++ r) = l ++ truncAtFirst c r := by
  induction l with
  | nil => rfl
  | cons x xs ih =>
    simp only [List.mem_cons, not_or] at h
    have hxc : ¬x = c := fun hx => h.1 hx.symm
    simp only [List.cons_append, truncAtFirst, List.append_eq, if_neg hxc,
      ih h.2]

/-- Truncation is the identity on a list not containing the character. -/
theorem truncAtFirst_of_not_mem (c : Char) (l : List Char) (h : c ∉ l) :
    truncAtFirst c l = l := by
  have := truncAtFirst_append_of_not_mem c l [] h
  simpa [truncAtFirst] using this

/-- A block consisting only of CR and LF characters is truncated away
entirely by the two passes of `rpmem_ssh_strerror`. -/
theorem truncAtFirst_crlf_block (tail : List Char)
    (htail : ∀ c ∈ tail, c = '\r' ∨ c = '\n') :
    truncAtFirst '\n' (truncAtFirst '\r' tail) = [] := by
  cases tail with
  | nil => rfl
  | cons t ts =>
    rcases htail t (List.mem_cons_self t ts) with h | h
    · subst h
      simp [truncAtFirst]
    · subst h
      simp [truncAtFirst]

/-- `dropWhile` skips an entire prefix whose elements all satisfy the
predicate. -/
theorem dropWhile_append_of_all (p : Char → Bool) (l r : List Char)
    (h : ∀ x ∈ l, p x = true) :
    List.dropWhile p (l ++ r) = List.dropWhile p r := by
  induction l with
  | nil => rfl
  | cons x xs ih =>
    simp only [List.cons_append, List.dropWhile_cons,
      h x (List.mem_cons_self x xs), if_true]
    exact ih (fun y hy => h y (List.mem_cons_of_mem x hy))

/-- `dropWhile` is the identity on a list none of whose elements satisfy
the predicate. -/
theorem dropWhile_of_all_neg (p : Char → Bool) (l : List Char)
    (h : ∀ x ∈ l, p x = false) : List.dropWhile p l = l := by
  cases l with
  | nil => rfl
  | cons x xs =>
    simp only [List.dropWhile_cons, h x (List.mem_cons_self x xs)]
    rfl

/-- On a CR/LF-free line followed by a CR/LF-only tail, the spec-side
stripping of trailing CR/LF bytes yields exactly the line. -/
theorem spec_stripTrailingCRLF_line (line tail : List Char)
    (hline : ∀ c ∈ line, c ≠ '\r' ∧ c ≠ '\n')
    (htail : ∀ c ∈ tail, c = '\r' ∨ c = '\n') :
    spec_stripTrailingCRLF (line ++ tail) = line := by
  unfold spec_stripTrailingCRLF
  rw [List.reverse_append]
  rw [dropWhile_append_of_all _ tail.reverse line.reverse ?hall]
  case hall =>
    intro x hx
    rcases htail x (List.mem_reverse.mp hx) with h | h <;> simp [h]
  rw [dropWhile_of_all_neg _ line.reverse ?hneg]
  case hneg =>
    intro x hx
    obtain ⟨h1, h2⟩ := hline x (List.mem_reverse.mp hx)
    simp [h1, h2]
  exact List.reverse_reverse line

/-- C8 counterexample: for the two-line stderr text `"a\nb"` the helper
truncates at the first LF and returns `"a"`, whereas stripping trailing CR
and LF bytes (the claim) would leave `"a\nb"` intact (and its last line is
`"b"`, not `"a"`). -/
theorem ssh_strerror_counterexample :
    rpmem_ssh_strerror (some ['a', '\n', 'b']) 0 = .text ['a'] ∧
    spec_stripTrailingCRLF ['a', '\n', 'b'] = ['a', '\n', 'b'] ∧
    (['a'] : List Char) ≠ ['a', '\n', 'b'] := by
  decide

/-- C8 (amended): the helper truncates the stderr text at the first CR and
at the first LF — which coincides with stripping trailing CR/LF bytes
exactly when the text is one CR/LF-free line followed only by CR/LF bytes —
and on empty stderr it returns the message for the stored errno when one is
stored, else the "unknown error" text. -/
theorem ssh_strerror_semantics (line tail : List Char) (e : Nat)
    (hline : ∀ c ∈ line, c ≠ '\r' ∧ c ≠ '\n')
    (htail : ∀ c ∈ tail, c = '\r' ∨ c = '\n')
    (he : e ≠ 0) :
    rpmem_ssh_strerror (some (line ++ tail)) e =
      (if line ++ tail = [] then .errnoMessage e else .text line) ∧
    spec_stripTrailingCRLF (line ++ tail) = line ∧
    rpmem_ssh_strerror (some []) e = .errnoMessage e ∧
    rpmem_ssh_strerror (some []) 0 = .unknownError := by
  have hspec := spec_stripTrailingCRLF_line line tail hline htail
  refine ⟨?_, hspec, ?_, ?_⟩
  · have hr : '\r' ∉ line := fun hm => (hline _ hm).1 rfl
    have hn : '\n' ∉ line := fun hm => (hline _ hm).2 rfl
    cases hlt : line ++ tail with
    | nil =>
      rw [if_pos rfl]
      simp [rpmem_ssh_strerror, he]
    | cons b bs =>
      rw [if_neg (by simp)]
      have hbody : rpmem_ssh_strerror (some (b :: bs)) e =
          .text (truncAtFirst '\n' (truncAtFirst '\r' (b :: bs))) := rfl
      rw [← hlt] at hbody ⊢
      rw [hbody, truncAtFirst_append_of_not_mem '\r' line tail hr,
        truncAtFirst_append_of_not_mem '\n' line
          (truncAtFirst '\r' tail)
          hn]
      rw [show truncAtFirst '\n' (truncAtFirst '\r' tail) = [] from
        truncAtFirst_crlf_block tail htail, List.append_nil]
  · simp [rpmem_ssh_strerror, he]
  · simp [rpmem_ssh_strerror]

/-- Witness for amended C8 on the single line `"err"` with trailing
`"\r\n"`, and stored errno `EPIPE = 32`. -/
theorem ssh_strerror_semantics_witness :
    rpmem_ssh_strerror (some (['e', 'r', 'r'] ++ ['\r', '\n'])) 32 =
      (if (['e', 'r', 'r'] ++ ['\r', '\n'] : List Char) = [] then
        .errnoMessage 32 else .text ['e', 'r', 'r']) ∧
    spec_stripTrailingCRLF (['e', 'r', 'r'] ++ ['\r', '\n']) =
      ['e', 'r', 'r'] ∧
    rpmem_ssh_strerror (some []) 32 = .errnoMessage 32 ∧
    rpmem_ssh_strerror (some []) 0 = .unknownError :=
  ssh_strerror_semantics ['e', 'r', 'r'] ['\r', '\n'] 32
    (by decide) (by decide) (by decide)

end Rpmem
